import Mathlib

/-!
Verification of the portfolio performance tracker (`portfolio_tracker.py`).

The program is a pandas pipeline: `load_portfolio` reads a CSV of holdings,
`get_live_prices` resolves one price per unique ticker (with a `0.0`
fallback and a warning on failure), `calculate_performance` adds five
derived columns to the holdings table, `generate_summary_and_report`
aggregates totals and writes the report CSV, and `generate_visualization`
aggregates current value by ticker and renders a bar chart.

Numeric model: CSV numbers and quotes are exact rationals; pandas column
arithmetic follows IEEE special-value semantics for division by zero and
missing data, so a pandas cell is modelled by `PFloat`: a finite rational,
`inf`, `ninf` (negative infinity), or `nan` (also the missing value NaN
produced by `Series.map` on an absent key). `fillna(0)` replaces exactly
`nan`. Signed zero is not modelled; it plays no role in this program
because quantities and prices are stored values, not results of rounding.
-/

/-- A pandas float cell: finite rational, +inf, -inf, or NaN (also "missing"). -/
inductive PFloat where
  | fin (q : ℚ)
  | inf
  | ninf
  | nan
deriving DecidableEq, Repr

/-- IEEE addition on `PFloat` (NaN propagates; inf + -inf = NaN). -/
def pfAdd : PFloat → PFloat → PFloat
  | .nan, _ => .nan
  | _, .nan => .nan
  | .fin a, .fin b => .fin (a + b)
  | .inf, .ninf => .nan
  | .ninf, .inf => .nan
  | .inf, _ => .inf
  | _, .inf => .inf
  | .ninf, _ => .ninf
  | _, .ninf => .ninf

/-- IEEE subtraction on `PFloat`. -/
def pfSub : PFloat → PFloat → PFloat
  | .nan, _ => .nan
  | _, .nan => .nan
  | .fin a, .fin b => .fin (a - b)
  | .fin _, .inf => .ninf
  | .fin _, .ninf => .inf
  | .inf, .fin _ => .inf
  | .ninf, .fin _ => .ninf
  | .inf, .inf => .nan
  | .inf, .ninf => .inf
  | .ninf, .inf => .ninf
  | .ninf, .ninf => .nan

/-- IEEE multiplication on `PFloat` (0 × inf = NaN). -/
def pfMul : PFloat → PFloat → PFloat
  | .nan, _ => .nan
  | _, .nan => .nan
  | .fin a, .fin b => .fin (a * b)
  | .fin a, .inf => if a = 0 then .nan else if 0 < a then .inf else .ninf
  | .inf, .fin b => if b = 0 then .nan else if 0 < b then .inf else .ninf
  | .fin a, .ninf => if a = 0 then .nan else if 0 < a then .ninf else .inf
  | .ninf, .fin b => if b = 0 then .nan else if 0 < b then .ninf else .inf
  | .inf, .inf => .inf
  | .inf, .ninf => .ninf
  | .ninf, .inf => .ninf
  | .ninf, .ninf => .inf

/-- IEEE division on `PFloat`: `x/0` is ±inf for `x ≠ 0` and NaN for `0/0`.
This is exactly what numpy (and hence a pandas column division) returns. -/
def pfDiv : PFloat → PFloat → PFloat
  | .nan, _ => .nan
  | _, .nan => .nan
  | .fin a, .fin b =>
      if b = 0 then (if a = 0 then .nan else if 0 < a then .inf else .ninf)
      else .fin (a / b)
  | .fin _, .inf => .fin 0
  | .fin _, .ninf => .fin 0
  | .inf, .fin b => if 0 ≤ b then .inf else .ninf
  | .ninf, .fin b => if 0 ≤ b then .ninf else .inf
  | .inf, .inf => .nan
  | .inf, .ninf => .nan
  | .ninf, .inf => .nan
  | .ninf, .ninf => .nan

/-- `Series.fillna(0)`: replaces NaN (and only NaN — not ±inf) by 0. -/
def fillna0 : PFloat → PFloat
  | .nan => .fin 0
  | x => x

/-- numpy `max` of two cells (NaN propagates, as in `ndarray.max`). -/
def pfMax : PFloat → PFloat → PFloat
  | .nan, _ => .nan
  | _, .nan => .nan
  | .fin a, .fin b => if a ≤ b then .fin b else .fin a
  | .inf, _ => .inf
  | _, .inf => .inf
  | .ninf, x => x
  | x, .ninf => x

/-- `x > 0` as evaluated on a float cell (NaN compares false). -/
def pfGtZero : PFloat → Bool
  | .fin a => decide (0 < a)
  | .inf => true
  | _ => false

/-- Bool comparison `a ≥ b` used for descending sorts (NaN compares false). -/
def pfGeB : PFloat → PFloat → Bool
  | .nan, _ => false
  | _, .nan => false
  | .fin a, .fin b => decide (b ≤ a)
  | .inf, _ => true
  | _, .inf => false
  | _, .ninf => true
  | .ninf, _ => false

/-- The finite value of a cell, with NaN (missing) read as 0; used to state
summation results, matching pandas' `sum(skipna=True)` on inf-free columns. -/
def pfToQ : PFloat → ℚ
  | .fin q => q
  | _ => 0

/-- Fold step of pandas `Series.sum()`: NaN entries are skipped (`skipna=True`). -/
def pfAddSkipNa (acc x : PFloat) : PFloat :=
  match x with
  | .nan => acc
  | x => pfAdd acc x

/-- pandas `Series.sum()` over a column (empty column sums to 0, NaN skipped). -/
def pandasSum (l : List PFloat) : PFloat :=
  l.foldl pfAddSkipNa (.fin 0)

/-- One line of portfolio input: the three CSV columns
`Ticker, Quantity, PurchasePrice` (§3 of the spec). -/
structure HoldingRecord where
  ticker : String
  quantity : ℚ
  purchasePrice : ℚ
deriving DecidableEq, Repr

/-- One row of the table returned by `calculate_performance`: the original
columns plus the five derived columns, in the order the code adds them. -/
structure EnrichedHolding where
  ticker : String
  quantity : ℚ
  purchasePrice : ℚ
  currentPrice : PFloat
  purchaseValue : PFloat
  currentValue : PFloat
  profitLoss : PFloat
  percentageReturn : PFloat
deriving DecidableEq, Repr

/-- Projection back to the three input columns of a row. -/
def toHolding (r : EnrichedHolding) : HoldingRecord :=
  ⟨r.ticker, r.quantity, r.purchasePrice⟩

/-- Python-dict lookup on an association list (keys are unique in the dicts
the program builds; `Series.map(dict)` yields NaN on an absent key). -/
def qlookup (k : String) : List (String × ℚ) → Option ℚ
  | [] => none
  | p :: ps => if p.1 = k then some p.2 else qlookup k ps

/-- One row of `calculate_performance` (lines 78-87 of the source): the
column operations are elementwise, so the table update is the row map of
this function. `CurrentPrice` is `Ticker.map(live_prices)` — NaN when the
ticker is not a key; the derived columns follow in source order, and
`PercentageReturn` is `(ProfitLoss / PurchaseValue) * 100` then `fillna(0)`. -/
def enrichRow (quotes : List (String × ℚ)) (h : HoldingRecord) : EnrichedHolding :=
  let currentPrice : PFloat :=
    match qlookup h.ticker quotes with
    | some p => .fin p
    | none => .nan
  let purchaseValue := pfMul (.fin h.quantity) (.fin h.purchasePrice)
  let currentValue := pfMul (.fin h.quantity) currentPrice
  let profitLoss := pfSub currentValue purchaseValue
  let percentageReturn := fillna0 (pfMul (pfDiv profitLoss purchaseValue) (.fin 100))
  ⟨h.ticker, h.quantity, h.purchasePrice, currentPrice, purchaseValue,
   currentValue, profitLoss, percentageReturn⟩

/-- `calculate_performance` with the quote resolution factored out as a
parameter (the source fetches `live_prices` inside the function; the pure
core is the holdings table plus the resolved quote dict). -/
def calculate_performance (hs : List HoldingRecord) (quotes : List (String × ℚ)) :
    List EnrichedHolding :=
  hs.map (enrichRow quotes)

example :
    calculate_performance [⟨"T", 1, 0⟩] [("T", 1)] =
      [⟨"T", 1, 0, .fin 1, .fin 0, .fin 1, .fin 1, .inf⟩] := by
  norm_num [calculate_performance, enrichRow, qlookup, pfMul, pfSub, pfDiv, fillna0]

example :
    calculate_performance [⟨"A", 2, 3⟩] [] =
      [⟨"A", 2, 3, .nan, .fin 6, .nan, .nan, .fin 0⟩] := by
  norm_num [calculate_performance, enrichRow, qlookup, pfMul, pfSub, pfDiv, fillna0]

/-- Python-dict insert: overwrite the value if the key is present (keeping
its position), otherwise append the new pair at the end. -/
def dinsert (m : List (String × ℚ)) (k : String) (v : ℚ) : List (String × ℚ) :=
  if (qlookup k m).isSome then m.map (fun p => if p.1 = k then (k, v) else p)
  else m ++ [(k, v)]

/-- Outcome of one provider request for a ticker (the external boundary of
`get_live_prices`): a one-day history with a closing price, an empty
history, or a raised exception. -/
inductive FetchOutcome where
  | price (p : ℚ)
  | empty
  | err
deriving DecidableEq, Repr

/-- A warning line printed by `get_live_prices` for one ticker. -/
inductive Warning where
  | noData (ticker : String)
  | fetchFailed (ticker : String)
deriving DecidableEq, Repr

/-- Loop body of `get_live_prices` (lines 48-60): a non-empty history
records its closing price; an empty history or an exception records `0.0`
and prints a warning; the loop always continues. -/
def glpStep (fetch : String → FetchOutcome)
    (acc : List (String × ℚ) × List Warning) (t : String) :
    List (String × ℚ) × List Warning :=
  match fetch t with
  | .price p => (dinsert acc.1 t p, acc.2)
  | .empty => (dinsert acc.1 t 0, acc.2 ++ [.noData t])
  | .err => (dinsert acc.1 t 0, acc.2 ++ [.fetchFailed t])

/-- `get_live_prices`, with the provider abstracted as `fetch`; returns the
price dict and the warnings printed, in order. -/
def get_live_prices (fetch : String → FetchOutcome) (tickers : List String) :
    List (String × ℚ) × List Warning :=
  tickers.foldl (glpStep fetch) ([], [])

/-- The price `get_live_prices` records for a ticker, given its fetch outcome. -/
def fetchVal (fetch : String → FetchOutcome) (t : String) : ℚ :=
  match fetch t with
  | .price p => p
  | _ => 0

/-- The totals computed in `generate_summary_and_report` (lines 100-108). -/
structure PortfolioTotals where
  totalPurchaseValue : PFloat
  totalCurrentValue : PFloat
  totalProfitLoss : PFloat
  totalPercentageReturn : PFloat
deriving DecidableEq, Repr

/-- `generate_summary_and_report`: sums the three value columns, guards the
total percentage return by `total_purchase_value > 0`, and writes the
performance table itself (row for row) as the report CSV. Returns the
totals and the rows written to the report. -/
def generate_summary_and_report (perf : List EnrichedHolding) :
    PortfolioTotals × List EnrichedHolding :=
  let tpv := pandasSum (perf.map (fun r => r.purchaseValue))
  let tcv := pandasSum (perf.map (fun r => r.currentValue))
  let tpl := pandasSum (perf.map (fun r => r.profitLoss))
  let tpr := if pfGtZero tpv then pfMul (pfDiv tpl tpv) (.fin 100) else .fin 0
  (⟨tpv, tcv, tpl, tpr⟩, perf)

/-- Kernel-reducible lexicographic comparison on character lists. -/
def strLtB : List Char → List Char → Bool
  | [], [] => false
  | [], _ :: _ => true
  | _ :: _, [] => false
  | a :: as, b :: bs => if a < b then true else if b < a then false else strLtB as bs

/-- `a ≤ b` on strings (lexicographic), used for pandas' sorted group keys. -/
def stringLeB (a b : String) : Bool :=
  strLtB a.data b.data || a == b

/-- Insert into a sorted list, keeping earlier elements first on ties. -/
def insertLe (le : α → α → Bool) (x : α) : List α → List α
  | [] => [x]
  | y :: ys => if le x y then x :: y :: ys else y :: insertLe le x ys

/-- Stable insertion sort by a boolean comparison. -/
def insSort (le : α → α → Bool) : List α → List α
  | [] => []
  | x :: xs => insertLe le x (insSort le xs)

/-- `Series.unique()` / dict-key order: first-occurrence deduplication. -/
def uniqueList (l : List String) : List String :=
  l.foldl (fun acc x => if x ∈ acc then acc else acc ++ [x]) []

/-- The chart data of `generate_visualization` (line 134):
`groupby('Ticker')['CurrentValue'].sum()` — group keys sorted ascending,
each group summed with pandas `sum` — then `.sort_values(ascending=False)`. -/
def chartAgg (perf : List EnrichedHolding) : List (String × PFloat) :=
  let keys := insSort stringLeB (uniqueList (perf.map (fun r => r.ticker)))
  let grouped := keys.map
    (fun t => (t, pandasSum ((perf.filter (fun r => r.ticker == t)).map
      (fun r => r.currentValue))))
  insSort (fun a b => pfGeB a.2 b.2) grouped

/-- numpy `ndarray.max()`: raises `ValueError` on an empty array, modelled
as `none`. -/
def numpyMax (l : List PFloat) : Option PFloat :=
  match l with
  | [] => none
  | x :: xs => some (xs.foldl pfMax x)

/-- `generate_visualization`: `none` is the `ValueError` raised by
`chart_data.values.max()` on an empty aggregation (the run crashes there);
otherwise the bars and the color intensities `value / max` (line 139). -/
def generate_visualization (perf : List EnrichedHolding) :
    Option (List (String × PFloat) × List PFloat) :=
  let cd := chartAgg perf
  match numpyMax (cd.map (fun p => p.2)) with
  | none => none
  | some m => some (cd, cd.map (fun p => pfDiv p.2 m))

/-- The tabular input file: its column names and its holding rows. -/
structure Csv where
  cols : List String
  rows : List HoldingRecord
deriving DecidableEq, Repr

/-- The columns `load_portfolio` requires (line 29). -/
def requiredColumns : List String :=
  ["Ticker", "Quantity", "PurchasePrice"]

/-- `load_portfolio`: `none` for a missing file (lines 21-24) or a missing
required column (lines 29-32); otherwise the parsed table. -/
def load_portfolio (file : Option Csv) : Option Csv :=
  match file with
  | none => none
  | some c => if requiredColumns.all (fun col => decide (col ∈ c.cols)) then some c else none

/-- Report destination path (line 8). -/
def REPORT_CSV_PATH : String := "portfolio_performance_report.csv"

/-- Chart destination path (line 9). -/
def CHART_PNG_PATH : String := "portfolio_distribution.png"

/-- `main` (lines 155-176), abstracted over the input file and the quote
provider; returns the list of output paths actually written, in order.
Loading failure returns before any output; the report is written before
the chart; a `ValueError` in `generate_visualization` stops the run with
the chart unwritten. -/
def mainWrites (file : Option Csv) (fetch : String → FetchOutcome) : List String :=
  match load_portfolio file with
  | none => []
  | some df =>
    let quotes := (get_live_prices fetch (uniqueList (df.rows.map (fun h => h.ticker)))).1
    let perf := calculate_performance df.rows quotes
    REPORT_CSV_PATH ::
      (match generate_visualization perf with
       | some _ => [CHART_PNG_PATH]
       | none => [])

/-- The five columns `calculate_performance` adds, in assignment order
(lines 78-87; `PercentageReturn` is assigned twice, lines 86 and 87). -/
def derivedColumns : List String :=
  ["CurrentPrice", "PurchaseValue", "CurrentValue", "ProfitLoss", "PercentageReturn"]

/-- pandas column assignment `df[c] = ...`: a new column is appended at the
end; an existing column is overwritten in place. -/
def addColumn (cols : List String) (c : String) : List String :=
  if c ∈ cols then cols else cols ++ [c]

/-- The column list of the report CSV: `to_csv` writes every column of the
DataFrame in its column order, which is the input file's columns followed
by each derived column added by `calculate_performance`. -/
def reportColumns (inputCols : List String) : List String :=
  addColumn (derivedColumns.foldl addColumn inputCols) "PercentageReturn"

/-! ## Helper lemmas -/

@[simp] theorem toHolding_enrichRow (q : List (String × ℚ)) (h : HoldingRecord) :
    toHolding (enrichRow q h) = h := rfl

theorem calcBase (hs : List HoldingRecord) (q : List (String × ℚ)) :
    (calculate_performance hs q).map toHolding = hs := by
  induction hs with
  | nil => rfl
  | cons h t ih => simpa [calculate_performance] using ih

@[simp] theorem pfMul_nan_right (x : PFloat) : pfMul x .nan = .nan := by
  cases x <;> rfl

@[simp] theorem pfMul_nan_left (x : PFloat) : pfMul .nan x = .nan := by
  cases x <;> rfl

@[simp] theorem pfSub_nan_left (x : PFloat) : pfSub .nan x = .nan := by
  cases x <;> rfl

@[simp] theorem pfDiv_nan_left (x : PFloat) : pfDiv .nan x = .nan := by
  cases x <;> rfl

/-! ## C3 and C10: purity and the frame of `calculate_performance` -/

/-- C3: running the calculator a second time, on the (mutated) table
produced by the first run — whose base columns are those carried by its
rows — yields the identical enriched sequence; the calculation is a pure
function of the base columns and the quotes. -/
theorem C3_idempotent (hs : List HoldingRecord) (q : List (String × ℚ)) :
    calculate_performance ((calculate_performance hs q).map toHolding) q =
      calculate_performance hs q := by
  rw [calcBase]

/-- C10: `calculate_performance` enriches the table in place: projecting
the output rows back to the three input columns gives back exactly the
input table (same values, same row order), and every output row's derived
columns are recomputed from its own unchanged base columns. -/
theorem C10_frame (hs : List HoldingRecord) (q : List (String × ℚ)) :
    (calculate_performance hs q).map toHolding = hs
  ∧ calculate_performance hs q =
      (calculate_performance hs q).map (fun r => enrichRow q (toHolding r)) := by
  refine ⟨calcBase hs q, ?_⟩
  simp [calculate_performance]

/-! ## C1: the division-by-zero guard -/

/-- C1: evaluation at the failing input. For a holding with
`purchasePrice = 0`, `quantity = 1` and a resolved price of `1`, the code
computes `ProfitLoss / PurchaseValue = 1 / 0 = +inf`, and `fillna(0)`
replaces only NaN, so `PercentageReturn` is `+inf` — not `0` and not
finite, contradicting the claimed guard. -/
theorem C1_code_eval :
    (calculate_performance [⟨"T", 1, 0⟩] [("T", 1)]).map
        (fun r => r.percentageReturn) = [PFloat.inf]
  ∧ PFloat.inf ≠ PFloat.fin 0 := by
  refine ⟨?_, by decide⟩
  norm_num [calculate_performance, enrichRow, qlookup, pfMul, pfSub, pfDiv, fillna0]

/-! ## C2: tickers absent from the quotes mapping -/

/-- C2 counterexample: for a holding whose ticker is absent from the
quotes dict, `currentValue` is NaN — not `0` as the claim (currentPrice
treated as `0.0`, hence currentValue `0`) would require. -/
theorem C2_counterexample :
    (calculate_performance [⟨"A", 2, 3⟩] []).map (fun r => r.currentValue) =
        [PFloat.nan]
  ∧ PFloat.nan ≠ PFloat.fin 0 := by
  refine ⟨?_, by decide⟩
  norm_num [calculate_performance, enrichRow, qlookup, pfMul, fillna0]

/-- C2 amended: a holding whose ticker is absent from the quotes mapping
gets a missing `currentPrice` (NaN, from `Series.map`), so its
`currentValue` and `profitLoss` are NaN rather than `0` and
`-purchaseValue`; its `percentageReturn` is `0` via `fillna(0)`. -/
theorem C2_absent_is_nan (hs : List HoldingRecord) (q : List (String × ℚ))
    (r : EnrichedHolding) (hr : r ∈ calculate_performance hs q)
    (habs : qlookup r.ticker q = none) :
    r.currentPrice = PFloat.nan ∧ r.currentValue = PFloat.nan ∧
    r.profitLoss = PFloat.nan ∧ r.percentageReturn = PFloat.fin 0 := by
  rcases List.mem_map.mp hr with ⟨h, _, rfl⟩
  have habs' : qlookup h.ticker q = none := habs
  simp [enrichRow, habs', fillna0]

/-- C2 amended, witnessed at a concrete holding and an empty quotes dict. -/
theorem C2_absent_is_nan_witness :
    (enrichRow [] ⟨"A", 2, 3⟩).currentPrice = PFloat.nan ∧
    (enrichRow [] ⟨"A", 2, 3⟩).currentValue = PFloat.nan ∧
    (enrichRow [] ⟨"A", 2, 3⟩).profitLoss = PFloat.nan ∧
    (enrichRow [] ⟨"A", 2, 3⟩).percentageReturn = PFloat.fin 0 :=
  C2_absent_is_nan [⟨"A", 2, 3⟩] [] (enrichRow [] ⟨"A", 2, 3⟩)
    (by simp [calculate_performance]) rfl

/-! ## C6: per-ticker failure policy of `get_live_prices` -/

theorem qlookup_map_overwrite (m : List (String × ℚ)) (k : String) (v : ℚ)
    (h : (qlookup k m).isSome = true) :
    qlookup k (m.map (fun p => if p.1 = k then (k, v) else p)) = some v := by
  induction m with
  | nil => simp [qlookup] at h
  | cons p ps ih =>
    by_cases hp : p.1 = k
    · simp [qlookup, hp]
    · simp [qlookup, hp] at h ⊢
      exact ih h

theorem qlookup_append_single_self (m : List (String × ℚ)) (k : String) (v : ℚ)
    (h : qlookup k m = none) :
    qlookup k (m ++ [(k, v)]) = some v := by
  induction m with
  | nil => simp [qlookup]
  | cons p ps ih =>
    by_cases hp : p.1 = k
    · simp [qlookup, hp] at h
    · simp [qlookup, hp] at h ⊢
      exact ih h

theorem qlookup_dinsert_self (m : List (String × ℚ)) (k : String) (v : ℚ) :
    qlookup k (dinsert m k v) = some v := by
  unfold dinsert
  cases hm : (qlookup k m).isSome with
  | true => simp only [hm, if_true]; exact qlookup_map_overwrite m k v hm
  | false =>
    simp only [hm, Bool.false_eq_true, if_false]
    exact qlookup_append_single_self m k v (Option.not_isSome_iff_eq_none.mp (by simp [hm]))

theorem qlookup_append_single_ne (m : List (String × ℚ)) (k : String) (v : ℚ)
    (k' : String) (hne : k' ≠ k) :
    qlookup k' (m ++ [(k, v)]) = qlookup k' m := by
  induction m with
  | nil => simp [qlookup, Ne.symm hne]
  | cons p ps ih =>
    by_cases hp : p.1 = k' <;> simp [qlookup, hp, ih]

theorem qlookup_map_ne (m : List (String × ℚ)) (k : String) (v : ℚ)
    (k' : String) (hne : k' ≠ k) :
    qlookup k' (m.map (fun p => if p.1 = k then (k, v) else p)) = qlookup k' m := by
  induction m with
  | nil => rfl
  | cons p ps ih =>
    by_cases hp : p.1 = k
    · simp [qlookup, hp, Ne.symm hne, ih]
    · simp only [List.map_cons, if_neg hp, qlookup]
      by_cases hq : p.1 = k'
      · simp [hq]
      · simp [hq, ih]

theorem qlookup_dinsert_ne (m : List (String × ℚ)) (k : String) (v : ℚ)
    (k' : String) (hne : k' ≠ k) :
    qlookup k' (dinsert m k v) = qlookup k' m := by
  unfold dinsert
  cases hm : (qlookup k m).isSome with
  | true => simp only [hm, if_true]; exact qlookup_map_ne m k v k' hne
  | false =>
    simp only [hm, Bool.false_eq_true, if_false]
    exact qlookup_append_single_ne m k v k' hne

theorem glp_foldl_lookup (fetch : String → FetchOutcome) (t : String) :
    ∀ (ts : List String) (m : List (String × ℚ)) (w : List Warning),
      qlookup t ((ts.foldl (glpStep fetch) (m, w)).1) =
        if t ∈ ts then some (fetchVal fetch t) else qlookup t m := by
  intro ts
  induction ts with
  | nil => intro m w; simp
  | cons s ts ih =>
    intro m w
    rw [List.foldl_cons, ih]
    by_cases hts : t ∈ ts
    · simp [hts, List.mem_cons]
    · by_cases hst : t = s
      · subst hst
        have hsome : qlookup t (glpStep fetch (m, w) t).1 = some (fetchVal fetch t) := by
          cases hf : fetch t <;>
            simp [glpStep, hf, fetchVal, qlookup_dinsert_self]
        simp [hts, List.mem_cons, hsome]
      · have hkeep : qlookup t (glpStep fetch (m, w) s).1 = qlookup t m := by
          cases hf : fetch s <;>
            simp [glpStep, hf, qlookup_dinsert_ne _ _ _ _ hst]
        simp [hts, hst, List.mem_cons, hkeep]

theorem glp_foldl_warn_mono (fetch : String → FetchOutcome) (x : Warning) :
    ∀ (ts : List String) (m : List (String × ℚ)) (w : List Warning),
      x ∈ w → x ∈ (ts.foldl (glpStep fetch) (m, w)).2 := by
  intro ts
  induction ts with
  | nil => intro m w h; simpa using h
  | cons s ts ih =>
    intro m w h
    rw [List.foldl_cons]
    apply ih
    cases hf : fetch s <;> simp [glpStep, hf, h]

theorem glp_warn_noData (fetch : String → FetchOutcome) (t : String)
    (hf : fetch t = FetchOutcome.empty) :
    ∀ (ts : List String) (m : List (String × ℚ)) (w : List Warning),
      t ∈ ts → Warning.noData t ∈ (ts.foldl (glpStep fetch) (m, w)).2 := by
  intro ts
  induction ts with
  | nil => intro m w h; simp at h
  | cons s ts ih =>
    intro m w h
    rw [List.foldl_cons]
    rcases List.mem_cons.mp h with h1 | h2
    · subst h1
      apply glp_foldl_warn_mono
      simp [glpStep, hf]
    · exact ih _ _ h2

theorem glp_warn_fetchFailed (fetch : String → FetchOutcome) (t : String)
    (hf : fetch t = FetchOutcome.err) :
    ∀ (ts : List String) (m : List (String × ℚ)) (w : List Warning),
      t ∈ ts → Warning.fetchFailed t ∈ (ts.foldl (glpStep fetch) (m, w)).2 := by
  intro ts
  induction ts with
  | nil => intro m w h; simp at h
  | cons s ts ih =>
    intro m w h
    rw [List.foldl_cons]
    rcases List.mem_cons.mp h with h1 | h2
    · subst h1
      apply glp_foldl_warn_mono
      simp [glpStep, hf]
    · exact ih _ _ h2

/-- C6: for every ticker in the input list, `get_live_prices` records a
price (the ticker is never omitted from the returned dict); when the
provider returns no data, or the request raises, the recorded price is
`0.0` and the matching warning is emitted — and this holds for each ticker
independently of the outcomes of the others, so no failure aborts the
remaining lookups. -/
theorem C6_per_ticker (fetch : String → FetchOutcome) (ts : List String)
    (t : String) (ht : t ∈ ts) :
    (qlookup t (get_live_prices fetch ts).1).isSome = true
  ∧ (fetch t = FetchOutcome.empty →
       qlookup t (get_live_prices fetch ts).1 = some 0
       ∧ Warning.noData t ∈ (get_live_prices fetch ts).2)
  ∧ (fetch t = FetchOutcome.err →
       qlookup t (get_live_prices fetch ts).1 = some 0
       ∧ Warning.fetchFailed t ∈ (get_live_prices fetch ts).2) := by
  have hl : qlookup t (get_live_prices fetch ts).1 = some (fetchVal fetch t) := by
    unfold get_live_prices
    rw [glp_foldl_lookup]
    simp [ht]
  refine ⟨by simp [hl], fun hf => ⟨?_, ?_⟩, fun hf => ⟨?_, ?_⟩⟩
  · rw [hl]; simp [fetchVal, hf]
  · exact glp_warn_noData fetch t hf ts [] [] ht
  · rw [hl]; simp [fetchVal, hf]
  · exact glp_warn_fetchFailed fetch t hf ts [] [] ht

/-- C6, witnessed: a two-ticker run where the second ticker's provider
request fails with an empty history while the first succeeds. -/
theorem C6_per_ticker_witness :
    (qlookup "BAD"
        (get_live_prices (fun s => if s = "BAD" then .empty else .price 5)
          ["GOOD", "BAD"]).1).isSome = true
  ∧ ((fun s => if s = "BAD" then FetchOutcome.empty else FetchOutcome.price 5) "BAD" =
        FetchOutcome.empty →
      qlookup "BAD"
          (get_live_prices (fun s => if s = "BAD" then .empty else .price 5)
            ["GOOD", "BAD"]).1 = some 0
      ∧ Warning.noData "BAD" ∈
          (get_live_prices (fun s => if s = "BAD" then .empty else .price 5)
            ["GOOD", "BAD"]).2)
  ∧ ((fun s => if s = "BAD" then FetchOutcome.empty else FetchOutcome.price 5) "BAD" =
        FetchOutcome.err →
      qlookup "BAD"
          (get_live_prices (fun s => if s = "BAD" then .empty else .price 5)
            ["GOOD", "BAD"]).1 = some 0
      ∧ Warning.fetchFailed "BAD" ∈
          (get_live_prices (fun s => if s = "BAD" then .empty else .price 5)
            ["GOOD", "BAD"]).2) :=
  C6_per_ticker (fun s => if s = "BAD" then .empty else .price 5)
    ["GOOD", "BAD"] "BAD" (by simp)

/-! ## C7: totals are sums, with the same zero-guard -/

theorem foldl_pfAddSkipNa_fin (l : List PFloat) :
    ∀ a : ℚ, (∀ x ∈ l, x ≠ PFloat.inf ∧ x ≠ PFloat.ninf) →
      l.foldl pfAddSkipNa (.fin a) = .fin (a + (l.map pfToQ).sum) := by
  induction l with
  | nil => intro a _; simp
  | cons x xs ih =>
    intro a h
    have hx := h x (List.mem_cons_self x xs)
    have hxs := fun y hy => h y (List.mem_cons_of_mem x hy)
    cases x with
    | fin q =>
      rw [List.foldl_cons]
      have hstep : pfAddSkipNa (.fin a) (.fin q) = .fin (a + q) := rfl
      rw [hstep, ih (a + q) hxs]
      simp [pfToQ, add_assoc]
    | nan =>
      rw [List.foldl_cons]
      have hstep : pfAddSkipNa (.fin a) .nan = .fin a := rfl
      rw [hstep, ih a hxs]
      simp [pfToQ]
    | inf => exact absurd rfl hx.1
    | ninf => exact absurd rfl hx.2

theorem pandasSum_noInf (l : List PFloat)
    (h : ∀ x ∈ l, x ≠ PFloat.inf ∧ x ≠ PFloat.ninf) :
    pandasSum l = .fin ((l.map pfToQ).sum) := by
  have := foldl_pfAddSkipNa_fin l 0 h
  simpa [pandasSum] using this

theorem enrich_noInf (q : List (String × ℚ)) (h : HoldingRecord) :
    ((enrichRow q h).purchaseValue ≠ PFloat.inf ∧ (enrichRow q h).purchaseValue ≠ PFloat.ninf)
  ∧ ((enrichRow q h).currentValue ≠ PFloat.inf ∧ (enrichRow q h).currentValue ≠ PFloat.ninf)
  ∧ ((enrichRow q h).profitLoss ≠ PFloat.inf ∧ (enrichRow q h).profitLoss ≠ PFloat.ninf) := by
  cases hq : qlookup h.ticker q <;> simp [enrichRow, hq, pfMul, pfSub]

/-- C7: the totals of `generate_summary_and_report` are the sums of the
corresponding per-holding columns (pandas `sum` on these columns — which
never contain ±inf — is the rational sum of their values, missing entries
read as 0), and the total percentage return obeys the same zero-guard as
the per-holding field: 0 whenever the total purchase value is not
positive, `(totalProfitLoss / totalPurchaseValue) * 100` otherwise. -/
theorem C7_totals (hs : List HoldingRecord) (q : List (String × ℚ)) :
    (generate_summary_and_report (calculate_performance hs q)).1.totalPurchaseValue
      = PFloat.fin (((calculate_performance hs q).map (fun r => pfToQ r.purchaseValue)).sum)
  ∧ (generate_summary_and_report (calculate_performance hs q)).1.totalCurrentValue
      = PFloat.fin (((calculate_performance hs q).map (fun r => pfToQ r.currentValue)).sum)
  ∧ (generate_summary_and_report (calculate_performance hs q)).1.totalProfitLoss
      = PFloat.fin (((calculate_performance hs q).map (fun r => pfToQ r.profitLoss)).sum)
  ∧ (generate_summary_and_report (calculate_performance hs q)).1.totalPercentageReturn
      = (if 0 < ((calculate_performance hs q).map (fun r => pfToQ r.purchaseValue)).sum
         then PFloat.fin
            ((((calculate_performance hs q).map (fun r => pfToQ r.profitLoss)).sum /
              ((calculate_performance hs q).map (fun r => pfToQ r.purchaseValue)).sum) * 100)
         else PFloat.fin 0) := by
  have hpv : pandasSum ((calculate_performance hs q).map (fun r => r.purchaseValue))
      = PFloat.fin (((calculate_performance hs q).map (fun r => pfToQ r.purchaseValue)).sum) := by
    rw [pandasSum_noInf]
    · simp [List.map_map, Function.comp_def]
    · intro x hx
      rcases List.mem_map.mp hx with ⟨r, hr, rfl⟩
      rcases List.mem_map.mp hr with ⟨h0, _, rfl⟩
      exact (enrich_noInf q h0).1
  have hcv : pandasSum ((calculate_performance hs q).map (fun r => r.currentValue))
      = PFloat.fin (((calculate_performance hs q).map (fun r => pfToQ r.currentValue)).sum) := by
    rw [pandasSum_noInf]
    · simp [List.map_map, Function.comp_def]
    · intro x hx
      rcases List.mem_map.mp hx with ⟨r, hr, rfl⟩
      rcases List.mem_map.mp hr with ⟨h0, _, rfl⟩
      exact (enrich_noInf q h0).2.1
  have hpl : pandasSum ((calculate_performance hs q).map (fun r => r.profitLoss))
      = PFloat.fin (((calculate_performance hs q).map (fun r => pfToQ r.profitLoss)).sum) := by
    rw [pandasSum_noInf]
    · simp [List.map_map, Function.comp_def]
    · intro x hx
      rcases List.mem_map.mp hx with ⟨r, hr, rfl⟩
      rcases List.mem_map.mp hr with ⟨h0, _, rfl⟩
      exact (enrich_noInf q h0).2.2
  refine ⟨by simp [generate_summary_and_report, hpv], by simp [generate_summary_and_report, hcv],
          by simp [generate_summary_and_report, hpl], ?_⟩
  show (if pfGtZero (pandasSum ((calculate_performance hs q).map (fun r => r.purchaseValue)))
        then pfMul (pfDiv (pandasSum ((calculate_performance hs q).map (fun r => r.profitLoss)))
               (pandasSum ((calculate_performance hs q).map (fun r => r.purchaseValue)))) (.fin 100)
        else .fin 0) = _
  rw [hpv, hpl]
  by_cases hlt : 0 < ((calculate_performance hs q).map (fun r => pfToQ r.purchaseValue)).sum
  · simp [pfGtZero, hlt, pfDiv, pfMul, hlt.ne']
  · simp [pfGtZero, hlt]

/-! ## C4: empty and all-zero degenerate cases -/

/-- C4: evaluation at the failing input. With zero holdings the totals are
all `0`, the total percentage return is `0` (the guard takes the `else`
branch), and the report table is empty — but `generate_visualization`
reaches `chart_data.values.max()` on an empty array, which raises
`ValueError` (modelled by `none`): the chart step is neither skipped nor
completed. For a nonempty all-zero portfolio the division by the maximum
does not fail: `0/0` yields a NaN color intensity and the chart is
produced. -/
theorem C4_code_eval :
    (generate_summary_and_report (calculate_performance ([] : List HoldingRecord) [])).1
      = ⟨PFloat.fin 0, PFloat.fin 0, PFloat.fin 0, PFloat.fin 0⟩
  ∧ (generate_summary_and_report (calculate_performance ([] : List HoldingRecord) [])).2 = []
  ∧ generate_visualization (calculate_performance ([] : List HoldingRecord) []) = none
  ∧ generate_visualization (calculate_performance [⟨"A", 0, 0⟩] [("A", 0)])
      = some ([("A", PFloat.fin 0)], [PFloat.nan]) := by
  refine ⟨?_, rfl, rfl, ?_⟩
  · norm_num [generate_summary_and_report, calculate_performance, pandasSum, pfGtZero]
  · norm_num [generate_visualization, chartAgg, uniqueList, insSort, insertLe,
      stringLeB, strLtB, pandasSum, pfAddSkipNa, pfAdd, numpyMax, pfMax, pfDiv,
      calculate_performance, enrichRow, qlookup, pfMul, pfSub, fillna0, pfGeB]

/-! ## C5: fatal load errors produce no output files -/

/-- C5: when the input file is absent (`MissingSourceError` path, lines
21-24) or a required column is missing (`SchemaError` path, lines 29-32),
`load_portfolio` returns `None` and `main` returns before computing
anything, so neither the report CSV nor the chart image is written. -/
theorem C5_no_outputs_on_error (file : Option Csv) (fetch : String → FetchOutcome)
    (h : file = none ∨ ∃ c, file = some c ∧
          requiredColumns.all (fun col => decide (col ∈ c.cols)) = false) :
    mainWrites file fetch = [] := by
  rcases h with rfl | ⟨c, rfl, hc⟩
  · rfl
  · simp [mainWrites, load_portfolio, hc]

/-- C5, witnessed at an absent input file. -/
theorem C5_no_outputs_on_error_witness :
    mainWrites none (fun _ => FetchOutcome.err) = [] :=
  C5_no_outputs_on_error none (fun _ => FetchOutcome.err) (Or.inl rfl)

/-! ## C8: the worked example of §8 -/

/-- C8: the spec's concrete example. Rows in input order get purchase
values 1500, 800, 5600; current values 1700, 850, 5400; profit/loss 200,
50, −200; the totals are 7900, 7950, 50 with percentage return 50/79
(≈ 0.63, bracketed below between 0.63 and 0.635); the chart aggregates
AAPL to 2550 and GOOG to 5400 and orders GOOG first (tallest bar). -/
theorem C8_example :
    (calculate_performance
        [⟨"AAPL", 10, 150⟩, ⟨"AAPL", 5, 160⟩, ⟨"GOOG", 2, 2800⟩]
        [("AAPL", 170), ("GOOG", 2700)]).map (fun r => r.purchaseValue)
      = [PFloat.fin 1500, PFloat.fin 800, PFloat.fin 5600]
  ∧ (calculate_performance
        [⟨"AAPL", 10, 150⟩, ⟨"AAPL", 5, 160⟩, ⟨"GOOG", 2, 2800⟩]
        [("AAPL", 170), ("GOOG", 2700)]).map (fun r => r.currentValue)
      = [PFloat.fin 1700, PFloat.fin 850, PFloat.fin 5400]
  ∧ (calculate_performance
        [⟨"AAPL", 10, 150⟩, ⟨"AAPL", 5, 160⟩, ⟨"GOOG", 2, 2800⟩]
        [("AAPL", 170), ("GOOG", 2700)]).map (fun r => r.profitLoss)
      = [PFloat.fin 200, PFloat.fin 50, PFloat.fin (-200)]
  ∧ (generate_summary_and_report (calculate_performance
        [⟨"AAPL", 10, 150⟩, ⟨"AAPL", 5, 160⟩, ⟨"GOOG", 2, 2800⟩]
        [("AAPL", 170), ("GOOG", 2700)])).1
      = ⟨PFloat.fin 7900, PFloat.fin 7950, PFloat.fin 50, PFloat.fin (50 / 79)⟩
  ∧ (63 : ℚ) / 100 < 50 / 79
  ∧ (50 : ℚ) / 79 < 127 / 200
  ∧ chartAgg (calculate_performance
        [⟨"AAPL", 10, 150⟩, ⟨"AAPL", 5, 160⟩, ⟨"GOOG", 2, 2800⟩]
        [("AAPL", 170), ("GOOG", 2700)])
      = [("GOOG", PFloat.fin 5400), ("AAPL", PFloat.fin 2550)] := by
  refine ⟨?_, ?_, ?_, ?_, by norm_num, by norm_num, ?_⟩
  · norm_num +decide [calculate_performance, enrichRow, qlookup, pfMul, pfSub, pfDiv, fillna0]
  · norm_num +decide [calculate_performance, enrichRow, qlookup, pfMul, pfSub, pfDiv, fillna0]
  · norm_num +decide [calculate_performance, enrichRow, qlookup, pfMul, pfSub, pfDiv, fillna0]
  · norm_num +decide [generate_summary_and_report, calculate_performance, enrichRow, qlookup,
      pandasSum, pfAddSkipNa, pfAdd, pfMul, pfSub, pfDiv, fillna0, pfGtZero]
  · norm_num +decide [chartAgg, uniqueList, insSort, insertLe, stringLeB, strLtB,
      calculate_performance, enrichRow, qlookup, pandasSum, pfAddSkipNa, pfAdd,
      pfMul, pfSub, pfDiv, fillna0, pfGeB]

/-! ## C9: the report's column list -/

/-- C9 counterexample: an input whose columns are `Quantity, Ticker,
PurchasePrice` is valid (it contains every required column), yet the
report's columns are the input's columns followed by the derived ones —
not the claimed fixed order starting with `Ticker`. -/
theorem C9_counterexample :
    requiredColumns.all
        (fun col => decide (col ∈ (["Quantity", "Ticker", "PurchasePrice"] : List String))) = true
  ∧ reportColumns ["Quantity", "Ticker", "PurchasePrice"] ≠
      ["Ticker", "Quantity", "PurchasePrice", "CurrentPrice", "PurchaseValue",
       "CurrentValue", "ProfitLoss", "PercentageReturn"] := by decide

/-- C9 amended: when the input's columns are exactly
`Ticker, Quantity, PurchasePrice` in that order, the report has exactly
the eight claimed columns in the claimed order; in general the derived
columns are appended after whatever columns the input has (an extra
`Notes` column stays in place before them). -/
theorem C9_report_columns :
    reportColumns ["Ticker", "Quantity", "PurchasePrice"] =
      ["Ticker", "Quantity", "PurchasePrice", "CurrentPrice", "PurchaseValue",
       "CurrentValue", "ProfitLoss", "PercentageReturn"]
  ∧ reportColumns ["Ticker", "Quantity", "PurchasePrice", "Notes"] =
      ["Ticker", "Quantity", "PurchasePrice", "Notes", "CurrentPrice", "PurchaseValue",
       "CurrentValue", "ProfitLoss", "PercentageReturn"] := by decide
